import Mathlib

/-!
Shallow embedding of the N-body simulation core of `src/src/simulation.cpp`:
the `CelestialBody` record, the force-accumulation / integration / publish
phases of `updatePhysics`, and the body-store rebuild
(`initCelestialBodies`, embedding the source function that rebuilds the
body list).  Machine `float` arithmetic is modelled as exact arithmetic in
a linear ordered field.  The C library routines `sqrtf`, `sinf`, `cosf`
and the constant pi are abstracted as a record of function symbols
(`FloatOps`); theorems that need their defining properties take those
properties as hypotheses.  The mt19937 generator together with
`std::uniform_real_distribution` is modelled as a stream of unit draws
`u : Nat → α`, a distribution over `[a, b]` mapping a draw `u` to
`a + (b - a) * u`.
-/

set_option linter.unusedSectionVars false

namespace NBody

variable {α : Type} [LinearOrderedField α]

/-- Component vector of length three (`glm::vec3`). -/
structure Vec3 (α : Type) where
  (x y z : α)
deriving DecidableEq

instance : Zero (Vec3 α) := ⟨⟨0, 0, 0⟩⟩

instance : Add (Vec3 α) := ⟨fun a b => ⟨a.x + b.x, a.y + b.y, a.z + b.z⟩⟩

instance : Sub (Vec3 α) := ⟨fun a b => ⟨a.x - b.x, a.y - b.y, a.z - b.z⟩⟩

instance : SMul α (Vec3 α) := ⟨fun c v => ⟨c * v.x, c * v.y, c * v.z⟩⟩

/-- Dot product (`glm::dot`). -/
def Vec3.dot (a b : Vec3 α) : α := a.x * b.x + a.y * b.y + a.z * b.z

/-- Quaternion (`glm::quat`), components `(w, x, y, z)`. -/
structure Quat (α : Type) where
  (w x y z : α)
deriving DecidableEq

/-- Row-major matrix of size three (`glm::mat3`). -/
structure Mat3 (α : Type) where
  (m00 m01 m02 : α)
  (m10 m11 m12 : α)
  (m20 m21 m22 : α)
deriving DecidableEq

/-- Row-major matrix of size four (`glm::mat4`). -/
structure Mat4 (α : Type) where
  (m00 m01 m02 m03 : α)
  (m10 m11 m12 m13 : α)
  (m20 m21 m22 m23 : α)
  (m30 m31 m32 m33 : α)
deriving DecidableEq

/-- Matrix product of two size-four matrices (`glm::operator*`). -/
def mat4Mul (a b : Mat4 α) : Mat4 α :=
  ⟨a.m00 * b.m00 + a.m01 * b.m10 + a.m02 * b.m20 + a.m03 * b.m30,
   a.m00 * b.m01 + a.m01 * b.m11 + a.m02 * b.m21 + a.m03 * b.m31,
   a.m00 * b.m02 + a.m01 * b.m12 + a.m02 * b.m22 + a.m03 * b.m32,
   a.m00 * b.m03 + a.m01 * b.m13 + a.m02 * b.m23 + a.m03 * b.m33,
   a.m10 * b.m00 + a.m11 * b.m10 + a.m12 * b.m20 + a.m13 * b.m30,
   a.m10 * b.m01 + a.m11 * b.m11 + a.m12 * b.m21 + a.m13 * b.m31,
   a.m10 * b.m02 + a.m11 * b.m12 + a.m12 * b.m22 + a.m13 * b.m32,
   a.m10 * b.m03 + a.m11 * b.m13 + a.m12 * b.m23 + a.m13 * b.m33,
   a.m20 * b.m00 + a.m21 * b.m10 + a.m22 * b.m20 + a.m23 * b.m30,
   a.m20 * b.m01 + a.m21 * b.m11 + a.m22 * b.m21 + a.m23 * b.m31,
   a.m20 * b.m02 + a.m21 * b.m12 + a.m22 * b.m22 + a.m23 * b.m32,
   a.m20 * b.m03 + a.m21 * b.m13 + a.m22 * b.m23 + a.m23 * b.m33,
   a.m30 * b.m00 + a.m31 * b.m10 + a.m32 * b.m20 + a.m33 * b.m30,
   a.m30 * b.m01 + a.m31 * b.m11 + a.m32 * b.m21 + a.m33 * b.m31,
   a.m30 * b.m02 + a.m31 * b.m12 + a.m32 * b.m22 + a.m33 * b.m32,
   a.m30 * b.m03 + a.m31 * b.m13 + a.m32 * b.m23 + a.m33 * b.m33⟩

/-- `glm::translate(glm::mat4(1.0f), p)`: identity with translation column `p`. -/
def translateMat (p : Vec3 α) : Mat4 α :=
  ⟨1, 0, 0, p.x,
   0, 1, 0, p.y,
   0, 0, 1, p.z,
   0, 0, 0, 1⟩

/-- `glm::scale(glm::mat4(1.0f), glm::vec3(s))`: uniform scale by `s`. -/
def scaleMat (s : α) : Mat4 α :=
  ⟨s, 0, 0, 0,
   0, s, 0, 0,
   0, 0, s, 0,
   0, 0, 0, 1⟩

/-- `glm::mat4_cast(q)`: the rotation matrix of a quaternion. -/
def quatToMat4 (q : Quat α) : Mat4 α :=
  ⟨1 - 2 * (q.y * q.y + q.z * q.z), 2 * (q.x * q.y - q.w * q.z), 2 * (q.x * q.z + q.w * q.y), 0,
   2 * (q.x * q.y + q.w * q.z), 1 - 2 * (q.x * q.x + q.z * q.z), 2 * (q.y * q.z - q.w * q.x), 0,
   2 * (q.x * q.z - q.w * q.y), 2 * (q.y * q.z + q.w * q.x), 1 - 2 * (q.x * q.x + q.y * q.y), 0,
   0, 0, 0, 1⟩

/-- `glm::mat3(m)`: upper-left three-by-three block of a size-four matrix. -/
def Mat4.toMat3 (m : Mat4 α) : Mat3 α :=
  ⟨m.m00, m.m01, m.m02,
   m.m10, m.m11, m.m12,
   m.m20, m.m21, m.m22⟩

/-- `glm::transpose` on a size-three matrix. -/
def Mat3.transpose (m : Mat3 α) : Mat3 α :=
  ⟨m.m00, m.m10, m.m20,
   m.m01, m.m11, m.m21,
   m.m02, m.m12, m.m22⟩

/-- Determinant of a size-three matrix. -/
def Mat3.det (m : Mat3 α) : α :=
  m.m00 * (m.m11 * m.m22 - m.m12 * m.m21)
  - m.m01 * (m.m10 * m.m22 - m.m12 * m.m20)
  + m.m02 * (m.m10 * m.m21 - m.m11 * m.m20)

/-- `glm::inverse` on a size-three matrix: adjugate over determinant. -/
def Mat3.inverse (m : Mat3 α) : Mat3 α :=
  let d := m.det
  ⟨(m.m11 * m.m22 - m.m12 * m.m21) / d,
   -(m.m01 * m.m22 - m.m02 * m.m21) / d,
   (m.m01 * m.m12 - m.m02 * m.m11) / d,
   -(m.m10 * m.m22 - m.m12 * m.m20) / d,
   (m.m00 * m.m22 - m.m02 * m.m20) / d,
   -(m.m00 * m.m12 - m.m02 * m.m10) / d,
   (m.m10 * m.m21 - m.m11 * m.m20) / d,
   -(m.m00 * m.m21 - m.m01 * m.m20) / d,
   (m.m00 * m.m11 - m.m01 * m.m10) / d⟩

/-- `glm::transpose(glm::inverse(glm::mat3(m)))`, the normal matrix the
publish phase stores next to each instance transform. -/
def normalMatOf (m : Mat4 α) : Mat3 α := m.toMat3.inverse.transpose

/-- The C float library routines used by the simulation, abstracted as
function symbols over the carrier field. -/
structure FloatOps (α : Type) where
  sqrt : α → α
  sin : α → α
  cos : α → α
  pi : α

/-- `glm::radians`: degrees times pi over 180. -/
def radians (ops : FloatOps α) (deg : α) : α := deg * (ops.pi / 180)

/-- `glm::angleAxis(a, axis)`: quaternion with scalar part `cos (a/2)` and
vector part `sin (a/2) * axis`. -/
def angleAxis (ops : FloatOps α) (a : α) (axis : Vec3 α) : Quat α :=
  ⟨ops.cos (a / 2), ops.sin (a / 2) * axis.x, ops.sin (a / 2) * axis.y, ops.sin (a / 2) * axis.z⟩

/-- `glm::normalize(v)`: `v` scaled by the reciprocal of its magnitude. -/
def vnormalize (ops : FloatOps α) (v : Vec3 α) : Vec3 α :=
  (1 / ops.sqrt (Vec3.dot v v)) • v

/-- The `CelestialBody` struct of the source. -/
structure CelestialBody (α : Type) where
  position : Vec3 α
  velocity : Vec3 α
  acceleration : Vec3 α
  mass : α
  radiusScale : α
  orientation : Quat α
  modelMatrix : Mat4 α
  isStatic : Bool
  isAsteroid : Bool
  type : ℤ
deriving DecidableEq

/-- The matrix computed by `CelestialBody::updateModelMatrix`:
`trans * rot * scale_mat`. -/
def modelMatrixOf (p : Vec3 α) (q : Quat α) (s : α) : Mat4 α :=
  mat4Mul (mat4Mul (translateMat p) (quatToMat4 q)) (scaleMat s)

/-- `CelestialBody::updateModelMatrix`. -/
def CelestialBody.updateModelMatrix (b : CelestialBody α) : CelestialBody α :=
  { b with modelMatrix := modelMatrixOf b.position b.orientation b.radiusScale }

/-- The `CelestialBody` constructor: acceleration zero-initialised, model
matrix computed from position, orientation and scale. -/
def mkBody (pos vel : Vec3 α) (m rScale : α) (orient : Quat α)
    (stat asteroid : Bool) (t : ℤ) : CelestialBody α :=
  { position := pos, velocity := vel, acceleration := 0, mass := m,
    radiusScale := rScale, orientation := orient,
    modelMatrix := modelMatrixOf pos orient rScale,
    isStatic := stat, isAsteroid := asteroid, type := t }

/-- `CelestialBody::applyForce`: excluded when static or when the mass is
exactly zero, otherwise accumulate `force / mass` into the acceleration. -/
def CelestialBody.applyForce (b : CelestialBody α) (force : Vec3 α) : CelestialBody α :=
  if b.isStatic = true ∨ b.mass = 0 then b
  else { b with acceleration := b.acceleration + (1 / b.mass) • force }

/-- `CelestialBody::update`: static bodies only reset acceleration and
refresh the model matrix; movable bodies get semi-implicit Euler. -/
def CelestialBody.update (b : CelestialBody α) (dt : α) : CelestialBody α :=
  if b.isStatic = true then
    CelestialBody.updateModelMatrix { b with acceleration := 0 }
  else
    let v := b.velocity + dt • b.acceleration
    let p := b.position + dt • v
    CelestialBody.updateModelMatrix { b with velocity := v, position := p, acceleration := 0 }

/-- The configuration globals read by the rebuild (`sunMass` …
`asteroidBeltHeight`, `asteroidAmount`, `G_scaled`). -/
structure SimConfig (α : Type) where
  sunMass : α
  sunRadiusScale : α
  planetMass : α
  planetRadiusScale : α
  planetOrbitRadius : α
  planetInitialAngle : α
  avgAsteroidMass : α
  minAsteroidScale : α
  maxAsteroidScale : α
  beltInnerRadius : α
  beltOuterRadius : α
  beltHeight : α
  asteroidAmount : Nat
  gScaled : α
deriving DecidableEq

/-- A draw from `std::uniform_real_distribution(a, b)`, modelled as mapping
a unit draw `u` of the generator stream to `a + (b - a) * u`. -/
def udist (a b u : α) : α := a + (b - a) * u

/-- One procedurally generated asteroid of the rebuild loop.  `u` is the
generator stream and `base` the index of its first draw; the loop body
consumes twelve draws in source order: radius, angle, height, three
velocity perturbations, mass factor, scale, three axis components, and the
orientation angle. -/
def asteroidBody (ops : FloatOps α) (cfg : SimConfig α) (u : Nat → α) (base : Nat) :
    CelestialBody α :=
  let r := udist cfg.beltInnerRadius cfg.beltOuterRadius (u base)
  let angle := udist 0 (2 * ops.pi) (u (base + 1))
  let y := udist (-(cfg.beltHeight / 2)) (cfg.beltHeight / 2) (u (base + 2))
  let pos : Vec3 α := ⟨r * ops.cos angle, y, r * ops.sin angle⟩
  let velMag := if 0 < cfg.sunMass ∧ 0 < r then ops.sqrt (cfg.gScaled * cfg.sunMass / r) else 0
  let px := udist (-(velMag * (1 / 10))) (velMag * (1 / 10)) (u (base + 3))
  let py := udist (-(velMag * (1 / 10))) (velMag * (1 / 10)) (u (base + 4))
  let pz := udist (-(velMag * (1 / 10))) (velMag * (1 / 10)) (u (base + 5))
  let vel : Vec3 α :=
    ⟨-velMag * ops.sin angle + px, 0 + py * (1 / 10), velMag * ops.cos angle + pz⟩
  let currentMass := cfg.avgAsteroidMass * udist (1 / 2) (3 / 2) (u (base + 6))
  let currentScale := udist cfg.minAsteroidScale cfg.maxAsteroidScale (u (base + 7))
  let randomAxis := vnormalize ops
    ⟨udist 0 360 (u (base + 8)) + 1 / 10,
     udist 0 360 (u (base + 9)) + 1 / 10,
     udist 0 360 (u (base + 10)) + 1 / 10⟩
  let orient := angleAxis ops (radians ops (udist 0 360 (u (base + 11)))) randomAxis
  mkBody pos vel currentMass currentScale orient false true 2

/-- Ascending list `[0, 1, …, n-1]` of loop indices. -/
def rangeList : Nat → List Nat
  | 0 => []
  | n + 1 => rangeList n ++ [n]

/-- The body list built by the source rebuild function: the sun, the
planet, then `asteroidAmount` procedurally generated asteroids. -/
def initCelestialBodies (ops : FloatOps α) (cfg : SimConfig α) (u : Nat → α) :
    List (CelestialBody α) :=
  let sun := mkBody 0 0 cfg.sunMass cfg.sunRadiusScale ⟨1, 0, 0, 0⟩ false false 0
  let angleRad := radians ops cfg.planetInitialAngle
  let planetPos : Vec3 α :=
    ⟨cfg.planetOrbitRadius * ops.cos angleRad, 0, cfg.planetOrbitRadius * ops.sin angleRad⟩
  let orbitalVelMag :=
    if 0 < cfg.sunMass ∧ 0 < cfg.planetOrbitRadius then
      ops.sqrt (cfg.gScaled * cfg.sunMass / cfg.planetOrbitRadius)
    else 0
  let planetVel : Vec3 α :=
    ⟨-orbitalVelMag * ops.sin angleRad, 0, orbitalVelMag * ops.cos angleRad⟩
  let planet := mkBody planetPos planetVel cfg.planetMass cfg.planetRadiusScale
    (angleAxis ops (radians ops 0) ⟨0, 1, 0⟩) false false 1
  sun :: planet :: (rangeList cfg.asteroidAmount).map (fun i => asteroidBody ops cfg u (12 * i))

/-- The mutable globals touched by `updatePhysics`: the body vector, the
instance-buffer allocation size and contents, the pause flag, the speed
multiplier, the gravitational constant, and whether the instance VBOs have
been created (nonzero handles). -/
structure SimState (α : Type) where
  celestialBodies : List (CelestialBody α)
  asteroidAmount : Nat
  asteroidModelMatrices : List (Mat4 α)
  asteroidNormalMatrices : List (Mat3 α)
  pauseSimulation : Bool
  simulationSpeed : α
  gScaled : α
  instanceVBOsReady : Bool

/-- The softening constant `epsilon_sq = 1e-4f` of the force loop. -/
def epsilonSq : α := 1 / 10000

/-- The gravitational force the inner loop computes on body `bi` from body
`bj`: separation vector, squared magnitude with the softening floor,
direction `r_vec / r_mag` guarded against zero magnitude, and magnitude
`G * m_i * m_j / r_mag_sq`. -/
def gravForce (ops : FloatOps α) (g : α) (bi bj : CelestialBody α) : Vec3 α :=
  let rVec := bj.position - bi.position
  let rMagSq := Vec3.dot rVec rVec
  let rMagSq := if rMagSq < epsilonSq then epsilonSq else rMagSq
  let rMag := ops.sqrt rMagSq
  let rHat := if 0 < rMag then (1 / rMag) • rVec else 0
  let forceMag := g * bi.mass * bj.mass / rMagSq
  forceMag • rHat

/-- One iteration of the inner `j` loop of the force-accumulation phase
acting on the body at index `i` (accumulated in `b`): skip `j = i`, skip
pairs where both are asteroids, otherwise apply the pair force. -/
def forceStep (ops : FloatOps α) (g : α) (bodies : List (CelestialBody α)) (i : Nat)
    (b : CelestialBody α) (j : Nat) : CelestialBody α :=
  if i = j then b
  else
    match bodies.get? j with
    | none => b
    | some bj =>
      if b.isAsteroid = true ∧ bj.isAsteroid = true then b
      else b.applyForce (gravForce ops g b bj)

/-- The inner `j` loop of the force-accumulation phase: fold `forceStep`
over the index list. -/
def forceLoop (ops : FloatOps α) (g : α) (bodies : List (CelestialBody α)) (i : Nat)
    (b : CelestialBody α) (js : List Nat) : CelestialBody α :=
  js.foldl (forceStep ops g bodies i) b

/-- Index-carrying map used to run the outer `i` loop of the force phase. -/
def mapWithIndex (f : Nat → β → γ) : Nat → List β → List γ
  | _, [] => []
  | k, b :: bs => f k b :: mapWithIndex f (k + 1) bs

/-- The force-accumulation phase: every non-static body accumulates the
pair forces over all indices; static bodies are skipped entirely.  Only
accelerations change, so all position and mass reads go to the original
list. -/
def forcePhase (ops : FloatOps α) (g : α) (bodies : List (CelestialBody α)) :
    List (CelestialBody α) :=
  mapWithIndex (fun i bi =>
    if bi.isStatic = true then bi
    else forceLoop ops g bodies i bi (rangeList bodies.length)) 0 bodies

/-- The integration-and-publish loop: update every body, and for each
asteroid whose slot index is still below the allocation, write its model
matrix and normal matrix into the next sequential instance slot. -/
def publishLoop (dt : α) (amount : Nat) :
    List (CelestialBody α) → Nat → List (Mat4 α) → List (Mat3 α) →
    List (CelestialBody α) × Nat × List (Mat4 α) × List (Mat3 α)
  | [], idx, mats, norms => ([], idx, mats, norms)
  | b :: rest, idx, mats, norms =>
    let bu := b.update dt
    if bu.isAsteroid = true ∧ idx < amount then
      let r := publishLoop dt amount rest (idx + 1)
        (mats.set idx bu.modelMatrix) (norms.set idx (normalMatOf bu.modelMatrix))
      (bu :: r.1, r.2)
    else
      let r := publishLoop dt amount rest idx mats norms
      (bu :: r.1, r.2)

/-- The non-early-return part of `updatePhysics`: force phase, integration
and publish loop, then — when the allocation is nonempty, at least one
slot was written, and the instance VBOs exist — the partial buffer upload
covering exactly the written count (the second component carries the
uploaded instance count, `none` when no upload happens). -/
def updatePhysicsActive (ops : FloatOps α) (s : SimState α) (dt : α) :
    SimState α × Option Nat :=
  let dtEff := dt * s.simulationSpeed
  let bodies1 := forcePhase ops s.gScaled s.celestialBodies
  let r := publishLoop dtEff s.asteroidAmount bodies1 0
    s.asteroidModelMatrices s.asteroidNormalMatrices
  ({ s with celestialBodies := r.1,
            asteroidModelMatrices := r.2.2.1,
            asteroidNormalMatrices := r.2.2.2 },
   if 0 < s.asteroidAmount ∧ 0 < r.2.1 ∧ s.instanceVBOsReady = true then some r.2.1 else none)

/-- `updatePhysics`: early return when paused or when the speed-scaled
time step is zero, otherwise the active step. -/
def updatePhysics (ops : FloatOps α) (s : SimState α) (dt : α) :
    SimState α × Option Nat :=
  if s.pauseSimulation = true then (s, none)
  else if dt * s.simulationSpeed = 0 then (s, none)
  else updatePhysicsActive ops s dt

/-- One frame step viewed as a state transformer (drops the upload count). -/
def stepSim (ops : FloatOps α) (dt : α) (s : SimState α) : SimState α :=
  (updatePhysics ops s dt).1

/-- The state right after `resetSimulation`: bodies rebuilt, instance
buffers reallocated to the configured asteroid amount (contents
uninitialised in the source; zero-filled here), pause flag, speed and VBO
status carried alongside. -/
def rebuildState (ops : FloatOps α) (cfg : SimConfig α) (u : Nat → α)
    (pause : Bool) (speed : α) (ready : Bool) : SimState α :=
  { celestialBodies := initCelestialBodies ops cfg u
    asteroidAmount := cfg.asteroidAmount
    asteroidModelMatrices := List.replicate cfg.asteroidAmount (scaleMat 0)
    asteroidNormalMatrices := List.replicate cfg.asteroidAmount (Mat4.toMat3 (scaleMat 0))
    pauseSimulation := pause
    simulationSpeed := speed
    gScaled := cfg.gScaled
    instanceVBOsReady := ready }

/-- Number of bodies carrying the asteroid (Swarm) flag. -/
def countAst (bodies : List (CelestialBody α)) : Nat :=
  (bodies.filter (fun b => b.isAsteroid)).length

/-! Concrete rational instantiations used by counterexamples and witnesses.
`opsSun` agrees with the genuine square root, sine and cosine on every
input at which the sun-and-planet scenario below invokes them
(`sqrt 4 = 2`, `sqrt 64 = 8`, and the angle zero values), so the
evaluation below reproduces what the floating-point program computes on
that scene up to exact arithmetic. -/

/-- Float routines for the sun-and-planet scene: table square root,
angle-zero sine and cosine. -/
def opsSun : FloatOps ℚ :=
  ⟨fun q => if q = 4 then 2 else if q = 64 then 8 else 0, fun _ => 0, fun _ => 1, 0⟩

/-- Configuration of the sun-and-planet scene: sun of mass 2, planet of
mass 1 at orbit radius 8, gravitational constant 16, no asteroids. -/
def cfgSun : SimConfig ℚ :=
  { sunMass := 2, sunRadiusScale := 15, planetMass := 1, planetRadiusScale := 4,
    planetOrbitRadius := 8, planetInitialAngle := 0,
    avgAsteroidMass := 1 / 10, minAsteroidScale := 1 / 20, maxAsteroidScale := 1 / 4,
    beltInnerRadius := 100, beltOuterRadius := 180, beltHeight := 10,
    asteroidAmount := 0, gScaled := 16 }

/-- The sun-and-planet scene, freshly rebuilt, unpaused, at unit speed. -/
def stateSun : SimState ℚ := rebuildState opsSun cfgSun (fun _ => 0) false 1 true

/-- Trivial float routines (all calls answer a constant) for witnesses
whose claims hold for every choice of float routines. -/
def opsTriv : FloatOps ℚ := ⟨fun _ => 1, fun _ => 0, fun _ => 1, 0⟩

/-- Configuration with a single asteroid, used by publish-phase witnesses. -/
def cfgBelt : SimConfig ℚ :=
  { sunMass := 2, sunRadiusScale := 15, planetMass := 1, planetRadiusScale := 4,
    planetOrbitRadius := 8, planetInitialAngle := 0,
    avgAsteroidMass := 1 / 10, minAsteroidScale := 1 / 20, maxAsteroidScale := 1 / 4,
    beltInnerRadius := 100, beltOuterRadius := 180, beltHeight := 10,
    asteroidAmount := 1, gScaled := 16 }

/-- The one-asteroid scene, freshly rebuilt, unpaused, at unit speed. -/
def stateBelt : SimState ℚ := rebuildState opsTriv cfgBelt (fun _ => 0) false 1 true

/-- A hand-built static body, used to witness the static-body invariant. -/
def bodyStat : CelestialBody ℚ := mkBody ⟨1, 2, 3⟩ ⟨4, 5, 6⟩ 7 1 ⟨1, 0, 0, 0⟩ true false 0

/-- A state holding only the static body above. -/
def stateStat : SimState ℚ := ⟨[bodyStat], 0, [], [], false, 1, 1000, false⟩

/-- The source default configuration (sun mass 20000, orbit radius 70,
G = 1000) over any carrier, used to witness the Orbiter claim over the
real numbers. -/
def cfgR70 (α : Type) [LinearOrderedField α] : SimConfig α :=
  { sunMass := 20000, sunRadiusScale := 15, planetMass := 200, planetRadiusScale := 4,
    planetOrbitRadius := 70, planetInitialAngle := 0,
    avgAsteroidMass := 1 / 10, minAsteroidScale := 1 / 20, maxAsteroidScale := 1 / 4,
    beltInnerRadius := 100, beltOuterRadius := 180, beltHeight := 10,
    asteroidAmount := 0, gScaled := 1000 }

/-! Component lemmas for the vector operations. -/

@[simp] theorem Vec3.add_x (a b : Vec3 α) : (a + b).x = a.x + b.x := rfl

@[simp] theorem Vec3.add_y (a b : Vec3 α) : (a + b).y = a.y + b.y := rfl

@[simp] theorem Vec3.add_z (a b : Vec3 α) : (a + b).z = a.z + b.z := rfl

@[simp] theorem Vec3.sub_x (a b : Vec3 α) : (a - b).x = a.x - b.x := rfl

@[simp] theorem Vec3.sub_y (a b : Vec3 α) : (a - b).y = a.y - b.y := rfl

@[simp] theorem Vec3.sub_z (a b : Vec3 α) : (a - b).z = a.z - b.z := rfl

@[simp] theorem Vec3.smul_x (c : α) (v : Vec3 α) : (c • v).x = c * v.x := rfl

@[simp] theorem Vec3.smul_y (c : α) (v : Vec3 α) : (c • v).y = c * v.y := rfl

@[simp] theorem Vec3.smul_z (c : α) (v : Vec3 α) : (c • v).z = c * v.z := rfl

@[simp] theorem Vec3.zero_x : (0 : Vec3 α).x = 0 := rfl

@[simp] theorem Vec3.zero_y : (0 : Vec3 α).y = 0 := rfl

@[simp] theorem Vec3.zero_z : (0 : Vec3 α).z = 0 := rfl

theorem Vec3.ext_iff (a b : Vec3 α) : a = b ↔ a.x = b.x ∧ a.y = b.y ∧ a.z = b.z := by
  cases a; cases b; simp [Vec3.mk.injEq]

theorem Vec3.smul_smul (c d : α) (v : Vec3 α) : c • d • v = (c * d) • v := by
  cases v; simp [Vec3.ext_iff]; constructor
  · ring
  constructor
  · ring
  ring

theorem Vec3.dot_self_nonneg (v : Vec3 α) : 0 ≤ Vec3.dot v v := by
  have hx := mul_self_nonneg v.x
  have hy := mul_self_nonneg v.y
  have hz := mul_self_nonneg v.z
  unfold Vec3.dot
  linarith

/-! Projection-preservation lemmas: the force phase only touches
accelerations, the integrator never touches the category flags. -/

@[simp] theorem applyForce_position (b : CelestialBody α) (f : Vec3 α) :
    (b.applyForce f).position = b.position := by
  unfold CelestialBody.applyForce; split <;> rfl

@[simp] theorem applyForce_velocity (b : CelestialBody α) (f : Vec3 α) :
    (b.applyForce f).velocity = b.velocity := by
  unfold CelestialBody.applyForce; split <;> rfl

@[simp] theorem applyForce_mass (b : CelestialBody α) (f : Vec3 α) :
    (b.applyForce f).mass = b.mass := by
  unfold CelestialBody.applyForce; split <;> rfl

@[simp] theorem applyForce_isStatic (b : CelestialBody α) (f : Vec3 α) :
    (b.applyForce f).isStatic = b.isStatic := by
  unfold CelestialBody.applyForce; split <;> rfl

@[simp] theorem applyForce_isAsteroid (b : CelestialBody α) (f : Vec3 α) :
    (b.applyForce f).isAsteroid = b.isAsteroid := by
  unfold CelestialBody.applyForce; split <;> rfl

@[simp] theorem forceStep_isAsteroid (ops : FloatOps α) (g : α)
    (bodies : List (CelestialBody α)) (i : Nat) (b : CelestialBody α) (j : Nat) :
    (forceStep ops g bodies i b j).isAsteroid = b.isAsteroid := by
  unfold forceStep
  split
  · rfl
  · cases bodies.get? j with
    | none => rfl
    | some bj => dsimp only; split <;> simp

@[simp] theorem forceStep_isStatic (ops : FloatOps α) (g : α)
    (bodies : List (CelestialBody α)) (i : Nat) (b : CelestialBody α) (j : Nat) :
    (forceStep ops g bodies i b j).isStatic = b.isStatic := by
  unfold forceStep
  split
  · rfl
  · cases bodies.get? j with
    | none => rfl
    | some bj => dsimp only; split <;> simp

theorem forceLoop_isAsteroid (ops : FloatOps α) (g : α)
    (bodies : List (CelestialBody α)) (i : Nat) (js : List Nat) :
    ∀ b : CelestialBody α, (forceLoop ops g bodies i b js).isAsteroid = b.isAsteroid := by
  induction js with
  | nil => intro b; rfl
  | cons j js ih =>
    intro b
    unfold forceLoop at ih ⊢
    rw [List.foldl_cons, ih, forceStep_isAsteroid]

theorem forceLoop_isStatic (ops : FloatOps α) (g : α)
    (bodies : List (CelestialBody α)) (i : Nat) (js : List Nat) :
    ∀ b : CelestialBody α, (forceLoop ops g bodies i b js).isStatic = b.isStatic := by
  induction js with
  | nil => intro b; rfl
  | cons j js ih =>
    intro b
    unfold forceLoop at ih ⊢
    rw [List.foldl_cons, ih, forceStep_isStatic]

@[simp] theorem update_isAsteroid (b : CelestialBody α) (dt : α) :
    (b.update dt).isAsteroid = b.isAsteroid := by
  unfold CelestialBody.update CelestialBody.updateModelMatrix; split <;> rfl

@[simp] theorem update_isStatic (b : CelestialBody α) (dt : α) :
    (b.update dt).isStatic = b.isStatic := by
  unfold CelestialBody.update CelestialBody.updateModelMatrix; split <;> rfl

theorem update_static (b : CelestialBody α) (dt : α) (h : b.isStatic = true) :
    (b.update dt).position = b.position ∧ (b.update dt).velocity = b.velocity ∧
      (b.update dt).acceleration = 0 := by
  unfold CelestialBody.update CelestialBody.updateModelMatrix
  rw [if_pos h]
  exact ⟨rfl, rfl, rfl⟩

/-! List index helper lemmas. -/

theorem get?_set_self {β : Type} (l : List β) (i : Nat) (a : β) (h : i < l.length) :
    (l.set i a).get? i = some a := by
  induction l generalizing i with
  | nil => simp at h
  | cons x xs ih =>
    cases i with
    | zero => rfl
    | succ n =>
      simp only [List.set, List.get?]
      exact ih n (by simpa using h)

theorem get?_set_other {β : Type} (l : List β) (i j : Nat) (a : β) (h : i ≠ j) :
    (l.set i a).get? j = l.get? j := by
  induction l generalizing i j with
  | nil => simp
  | cons x xs ih =>
    cases i with
    | zero =>
      cases j with
      | zero => exact absurd rfl h
      | succ m => rfl
    | succ n =>
      cases j with
      | zero => rfl
      | succ m =>
        simp only [List.set, List.get?]
        exact ih n m (by omega)

theorem mapWithIndex_get? {β γ : Type} (f : Nat → β → γ) (k : Nat) (l : List β) (i : Nat) :
    (mapWithIndex f k l).get? i = (l.get? i).map (f (k + i)) := by
  induction l generalizing k i with
  | nil => simp [mapWithIndex]
  | cons b bs ih =>
    cases i with
    | zero => simp [mapWithIndex]
    | succ n =>
      simp only [mapWithIndex, List.get?]
      have h : k + 1 + n = k + (n + 1) := by omega
      rw [ih (k + 1) n, h]

theorem forcePhase_get? (ops : FloatOps α) (g : α) (bodies : List (CelestialBody α)) (i : Nat) :
    (forcePhase ops g bodies).get? i =
      (bodies.get? i).map (fun b =>
        if b.isStatic = true then b
        else forceLoop ops g bodies i b (rangeList bodies.length)) := by
  unfold forcePhase
  rw [mapWithIndex_get?]
  simp

/-! Lemmas about the integration-and-publish loop. -/

theorem publishLoop_bodies (dt : α) (amount : Nat) :
    ∀ (bodies : List (CelestialBody α)) (idx : Nat) (mats : List (Mat4 α))
      (norms : List (Mat3 α)),
      (publishLoop dt amount bodies idx mats norms).1 = bodies.map (fun b => b.update dt) := by
  intro bodies
  induction bodies with
  | nil => intro idx mats norms; rfl
  | cons b rest ih =>
    intro idx mats norms
    simp only [publishLoop]
    split
    · dsimp only
      rw [ih, List.map_cons]
    · dsimp only
      rw [ih, List.map_cons]

theorem publishLoop_matsLength (dt : α) (amount : Nat) :
    ∀ (bodies : List (CelestialBody α)) (idx : Nat) (mats : List (Mat4 α))
      (norms : List (Mat3 α)),
      (publishLoop dt amount bodies idx mats norms).2.2.1.length = mats.length := by
  intro bodies
  induction bodies with
  | nil => intro idx mats norms; rfl
  | cons b rest ih =>
    intro idx mats norms
    simp only [publishLoop]
    split
    · dsimp only
      rw [ih]
      simp
    · dsimp only
      rw [ih]

theorem publishLoop_normsLength (dt : α) (amount : Nat) :
    ∀ (bodies : List (CelestialBody α)) (idx : Nat) (mats : List (Mat4 α))
      (norms : List (Mat3 α)),
      (publishLoop dt amount bodies idx mats norms).2.2.2.length = norms.length := by
  intro bodies
  induction bodies with
  | nil => intro idx mats norms; rfl
  | cons b rest ih =>
    intro idx mats norms
    simp only [publishLoop]
    split
    · dsimp only
      rw [ih]
      simp
    · dsimp only
      rw [ih]

theorem countAst_cons (b : CelestialBody α) (rest : List (CelestialBody α)) :
    countAst (b :: rest) = (if b.isAsteroid = true then 1 else 0) + countAst rest := by
  unfold countAst
  by_cases h : b.isAsteroid = true
  · rw [List.filter_cons_of_pos h, if_pos h]
    exact Nat.add_comm _ _
  · rw [List.filter_cons_of_neg (by simpa using h), if_neg h]
    simp

theorem publishLoop_idx (dt : α) (amount : Nat) :
    ∀ (bodies : List (CelestialBody α)) (idx : Nat) (mats : List (Mat4 α))
      (norms : List (Mat3 α)), idx ≤ amount →
      (publishLoop dt amount bodies idx mats norms).2.1 =
        min (idx + countAst (bodies.map (fun b => b.update dt))) amount := by
  intro bodies
  induction bodies with
  | nil =>
    intro idx mats norms h
    simp [publishLoop, countAst]
    omega
  | cons b rest ih =>
    intro idx mats norms h
    simp only [publishLoop]
    rw [List.map_cons, countAst_cons]
    by_cases hA : (b.update dt).isAsteroid = true
    · by_cases hlt : idx < amount
      · rw [if_pos ⟨hA, hlt⟩]
        dsimp only
        rw [ih (idx + 1) _ _ (by omega), if_pos hA]
        omega
      · rw [if_neg (by tauto)]
        dsimp only
        rw [ih idx mats norms h, if_pos hA]
        omega
    · rw [if_neg (by tauto)]
      dsimp only
      rw [ih idx mats norms h, if_neg hA]
      omega

theorem publishLoop_preserve_lt (dt : α) (amount : Nat) :
    ∀ (bodies : List (CelestialBody α)) (idx : Nat) (mats : List (Mat4 α))
      (norms : List (Mat3 α)) (j : Nat), j < idx →
      (publishLoop dt amount bodies idx mats norms).2.2.1.get? j = mats.get? j ∧
        (publishLoop dt amount bodies idx mats norms).2.2.2.get? j = norms.get? j := by
  intro bodies
  induction bodies with
  | nil => intro idx mats norms j hj; exact ⟨rfl, rfl⟩
  | cons b rest ih =>
    intro idx mats norms j hj
    simp only [publishLoop]
    split
    · dsimp only
      have h1 := ih (idx + 1) (mats.set idx (b.update dt).modelMatrix)
        (norms.set idx (normalMatOf (b.update dt).modelMatrix)) j (by omega)
      rw [h1.1, h1.2, get?_set_other _ _ _ _ (by omega), get?_set_other _ _ _ _ (by omega)]
      exact ⟨rfl, rfl⟩
    · dsimp only
      exact ih idx mats norms j hj

theorem publishLoop_preserve_ge (dt : α) (amount : Nat) :
    ∀ (bodies : List (CelestialBody α)) (idx : Nat) (mats : List (Mat4 α))
      (norms : List (Mat3 α)) (j : Nat), amount ≤ j →
      (publishLoop dt amount bodies idx mats norms).2.2.1.get? j = mats.get? j ∧
        (publishLoop dt amount bodies idx mats norms).2.2.2.get? j = norms.get? j := by
  intro bodies
  induction bodies with
  | nil => intro idx mats norms j hj; exact ⟨rfl, rfl⟩
  | cons b rest ih =>
    intro idx mats norms j hj
    simp only [publishLoop]
    split
    · next hcond =>
      dsimp only
      have h1 := ih (idx + 1) (mats.set idx (b.update dt).modelMatrix)
        (norms.set idx (normalMatOf (b.update dt).modelMatrix)) j hj
      rw [h1.1, h1.2, get?_set_other _ _ _ _ (by omega), get?_set_other _ _ _ _ (by omega)]
      exact ⟨rfl, rfl⟩
    · dsimp only
      exact ih idx mats norms j hj

theorem publishLoop_slots (dt : α) (amount : Nat) :
    ∀ (bodies : List (CelestialBody α)) (idx : Nat) (mats : List (Mat4 α))
      (norms : List (Mat3 α)),
      idx + countAst (bodies.map (fun b => b.update dt)) ≤ amount →
      mats.length = amount → norms.length = amount →
      ∀ k, k < countAst (bodies.map (fun b => b.update dt)) →
      ∃ b, ((bodies.map (fun c => c.update dt)).filter (fun c => c.isAsteroid)).get? k = some b ∧
        (publishLoop dt amount bodies idx mats norms).2.2.1.get? (idx + k) =
          some b.modelMatrix ∧
        (publishLoop dt amount bodies idx mats norms).2.2.2.get? (idx + k) =
          some (normalMatOf b.modelMatrix) := by
  intro bodies
  induction bodies with
  | nil =>
    intro idx mats norms h hm hn k hk
    simp [countAst] at hk
  | cons b rest ih =>
    intro idx mats norms h hm hn k hk
    rw [List.map_cons, countAst_cons] at h hk
    by_cases hA : (b.update dt).isAsteroid = true
    · rw [if_pos hA] at h hk
      have hlt : idx < amount := by omega
      simp only [publishLoop]
      rw [if_pos ⟨hA, hlt⟩]
      dsimp only
      cases k with
      | zero =>
        refine ⟨b.update dt, ?_, ?_, ?_⟩
        · rw [List.map_cons, List.filter_cons_of_pos hA]
          rfl
        · have hp := (publishLoop_preserve_lt dt amount rest (idx + 1)
            (mats.set idx (b.update dt).modelMatrix)
            (norms.set idx (normalMatOf (b.update dt).modelMatrix)) idx (by omega)).1
          rw [get?_set_self _ _ _ (by omega)] at hp
          simpa using hp
        · have hp := (publishLoop_preserve_lt dt amount rest (idx + 1)
            (mats.set idx (b.update dt).modelMatrix)
            (norms.set idx (normalMatOf (b.update dt).modelMatrix)) idx (by omega)).2
          rw [get?_set_self _ _ _ (by omega)] at hp
          simpa using hp
      | succ k =>
        have hrec := ih (idx + 1) (mats.set idx (b.update dt).modelMatrix)
          (norms.set idx (normalMatOf (b.update dt).modelMatrix))
          (by simpa using (by omega : idx + 1 + countAst (rest.map (fun b => b.update dt)) ≤ amount))
          (by simpa using hm) (by simpa using hn) k (by omega)
        obtain ⟨c, hc1, hc2, hc3⟩ := hrec
        refine ⟨c, ?_, ?_, ?_⟩
        · rw [List.map_cons, List.filter_cons_of_pos hA]
          simpa using hc1
        · have harith : idx + (k + 1) = idx + 1 + k := by omega
          rw [harith]
          exact hc2
        · have harith : idx + (k + 1) = idx + 1 + k := by omega
          rw [harith]
          exact hc3
    · rw [if_neg hA] at h hk
      simp only [publishLoop]
      rw [if_neg (by tauto)]
      dsimp only
      have hrec := ih idx mats norms (by omega) hm hn k (by omega)
      obtain ⟨c, hc1, hc2, hc3⟩ := hrec
      refine ⟨c, ?_, ?_, ?_⟩
      · rw [List.map_cons, List.filter_cons_of_neg (by simpa using hA)]
        exact hc1
      · exact hc2
      · exact hc3

/-! Counting and state-level lemmas. -/

theorem countAst_mapWithIndex (f : Nat → CelestialBody α → CelestialBody α)
    (hf : ∀ i b, (f i b).isAsteroid = b.isAsteroid) :
    ∀ (k : Nat) (l : List (CelestialBody α)), countAst (mapWithIndex f k l) = countAst l := by
  intro k l
  induction l generalizing k with
  | nil => rfl
  | cons b rest ih =>
    simp only [mapWithIndex]
    rw [countAst_cons, countAst_cons, hf, ih]

theorem countAst_forcePhase (ops : FloatOps α) (g : α) (bodies : List (CelestialBody α)) :
    countAst (forcePhase ops g bodies) = countAst bodies := by
  unfold forcePhase
  apply countAst_mapWithIndex
  intro i b
  split
  · rfl
  · rw [forceLoop_isAsteroid]

theorem countAst_map_update (dt : α) (l : List (CelestialBody α)) :
    countAst (l.map (fun b => b.update dt)) = countAst l := by
  induction l with
  | nil => rfl
  | cons b rest ih =>
    rw [List.map_cons, countAst_cons, countAst_cons, update_isAsteroid, ih]

theorem rangeList_length (n : Nat) : (rangeList n).length = n := by
  induction n with
  | zero => rfl
  | succ n ih => simp [rangeList, ih]

theorem countAst_map_allAst {β : Type} (l : List β) (f : β → CelestialBody α)
    (hf : ∀ x, (f x).isAsteroid = true) : countAst (l.map f) = l.length := by
  induction l with
  | nil => rfl
  | cons b rest ih =>
    rw [List.map_cons, countAst_cons, hf, if_pos rfl, ih, List.length_cons]
    omega

theorem asteroidBody_isAsteroid (ops : FloatOps α) (cfg : SimConfig α) (u : Nat → α)
    (base : Nat) : (asteroidBody ops cfg u base).isAsteroid = true := rfl

theorem countAst_init (ops : FloatOps α) (cfg : SimConfig α) (u : Nat → α) :
    countAst (initCelestialBodies ops cfg u) = cfg.asteroidAmount := by
  unfold initCelestialBodies
  rw [countAst_cons, countAst_cons]
  simp only [mkBody]
  rw [countAst_map_allAst _ _ (fun x => asteroidBody_isAsteroid ops cfg u (12 * x)),
    rangeList_length]
  simp

theorem updatePhysics_noop (ops : FloatOps α) (s : SimState α) (dt : α)
    (h : s.pauseSimulation = true ∨ dt * s.simulationSpeed = 0) :
    updatePhysics ops s dt = (s, none) := by
  unfold updatePhysics
  rcases h with h | h
  · rw [if_pos h]
  · by_cases hp : s.pauseSimulation = true
    · rw [if_pos hp]
    · rw [if_neg hp, if_pos h]

theorem updatePhysics_active (ops : FloatOps α) (s : SimState α) (dt : α)
    (hp : s.pauseSimulation = false) (hdt : dt * s.simulationSpeed ≠ 0) :
    updatePhysics ops s dt = updatePhysicsActive ops s dt := by
  unfold updatePhysics
  rw [if_neg (by simp [hp]), if_neg hdt]

theorem stepSim_bodies (ops : FloatOps α) (s : SimState α) (dt : α)
    (hp : s.pauseSimulation = false) (hdt : dt * s.simulationSpeed ≠ 0) :
    (stepSim ops dt s).celestialBodies =
      (forcePhase ops s.gScaled s.celestialBodies).map
        (fun b => b.update (dt * s.simulationSpeed)) := by
  unfold stepSim
  rw [updatePhysics_active ops s dt hp hdt]
  unfold updatePhysicsActive
  dsimp only
  rw [publishLoop_bodies]

theorem step_static (ops : FloatOps α) (dt : α) (t : SimState α) (i : Nat)
    (c : CelestialBody α) (hb : t.celestialBodies.get? i = some c)
    (hst : c.isStatic = true) :
    ∃ c2, (stepSim ops dt t).celestialBodies.get? i = some c2 ∧
      c2.position = c.position ∧ c2.velocity = c.velocity ∧ c2.isStatic = true := by
  by_cases hp : t.pauseSimulation = true
  · refine ⟨c, ?_, rfl, rfl, hst⟩
    unfold stepSim
    rw [updatePhysics_noop ops t dt (Or.inl hp)]
    exact hb
  · by_cases hdt : dt * t.simulationSpeed = 0
    · refine ⟨c, ?_, rfl, rfl, hst⟩
      unfold stepSim
      rw [updatePhysics_noop ops t dt (Or.inr hdt)]
      exact hb
    · have hbs := stepSim_bodies ops t dt (by simpa using hp) hdt
      refine ⟨c.update (dt * t.simulationSpeed), ?_, ?_, ?_, ?_⟩
      · rw [hbs, List.get?_map, forcePhase_get?, hb]
        simp [hst]
      · exact (update_static c _ hst).1
      · exact (update_static c _ hst).2.1
      · rw [update_isStatic]; exact hst

/-! Lemmas for the Swarm-pair exclusion. -/

theorem forceStep_out (ops : FloatOps α) (g : α) (bodies : List (CelestialBody α))
    (i : Nat) (b : CelestialBody α) (j : Nat) (hj : bodies.get? j = none) :
    forceStep ops g bodies i b j = b := by
  unfold forceStep
  split
  · rfl
  · rw [hj]

theorem forceStep_bothAst (ops : FloatOps α) (g : α) (bodies : List (CelestialBody α))
    (i : Nat) (b c : CelestialBody α) (j : Nat) (hj : bodies.get? j = some c)
    (hb : b.isAsteroid = true) (hc : c.isAsteroid = true) :
    forceStep ops g bodies i b j = b := by
  unfold forceStep
  split
  · rfl
  · rw [hj]
    dsimp only
    rw [if_pos ⟨hb, hc⟩]

theorem forceLoop_filter_nonAst (ops : FloatOps α) (g : α)
    (bodies : List (CelestialBody α)) (i : Nat) (js : List Nat) :
    ∀ b : CelestialBody α, b.isAsteroid = true →
      forceLoop ops g bodies i b js =
        forceLoop ops g bodies i b
          (js.filter (fun j => !(((bodies.get? j).map (fun c => c.isAsteroid)).getD true))) := by
  induction js with
  | nil => intro b hA; rfl
  | cons j js ih =>
    intro b hA
    unfold forceLoop
    rw [List.foldl_cons]
    cases hj : bodies.get? j with
    | none =>
      have hj2 : bodies[j]? = none := by rw [← List.get?_eq_getElem?]; exact hj
      rw [List.filter_cons_of_neg (by simp [hj2]), forceStep_out ops g bodies i b j hj]
      exact ih b hA
    | some c =>
      have hj2 : bodies[j]? = some c := by rw [← List.get?_eq_getElem?]; exact hj
      by_cases hc : c.isAsteroid = true
      · rw [List.filter_cons_of_neg (by simp [hj2, hc]),
          forceStep_bothAst ops g bodies i b c j hj hA hc]
        exact ih b hA
      · rw [List.filter_cons_of_pos (by simp [hj2]; simpa using hc), List.foldl_cons]
        exact ih (forceStep ops g bodies i b j) (by rw [forceStep_isAsteroid]; exact hA)

/-! Claim theorems. -/

/-- C5: if the pause flag is set, or `dt * simulationSpeed` equals zero,
`updatePhysics` is a no-op: the whole state — every body's position,
velocity, acceleration and transform, and both instance buffers — is
returned unchanged, and no instance-buffer upload is reported. -/
theorem claimC5 (ops : FloatOps α) (s : SimState α) (dt : α)
    (h : s.pauseSimulation = true ∨ dt * s.simulationSpeed = 0) :
    updatePhysics ops s dt = (s, none) :=
  updatePhysics_noop ops s dt h

theorem claimC5_witness :
    (stateSun.pauseSimulation = true ∨ (0 : ℚ) * stateSun.simulationSpeed = 0) ∧
      updatePhysics opsSun stateSun 0 = (stateSun, none) :=
  ⟨Or.inr (zero_mul _), claimC5 opsSun stateSun 0 (Or.inr (zero_mul _))⟩

/-- C9: rebuilding the body store twice with equal configuration
parameters and an equal generator stream (the mt19937 generator seeded
identically is a fixed stream of draws) produces identical Swarm
populations. -/
theorem claimC9 (ops : FloatOps α) (cfg1 cfg2 : SimConfig α) (u1 u2 : Nat → α)
    (hc : cfg1 = cfg2) (hu : u1 = u2) :
    (initCelestialBodies ops cfg1 u1).filter (fun b => b.isAsteroid) =
      (initCelestialBodies ops cfg2 u2).filter (fun b => b.isAsteroid) := by
  rw [hc, hu]

theorem claimC9_witness :
    cfgBelt = cfgBelt ∧ (fun _ : Nat => (0 : ℚ)) = (fun _ : Nat => (0 : ℚ)) ∧
      (initCelestialBodies opsTriv cfgBelt (fun _ => 0)).filter (fun b => b.isAsteroid) =
        (initCelestialBodies opsTriv cfgBelt (fun _ => 0)).filter (fun b => b.isAsteroid) :=
  ⟨rfl, rfl, claimC9 opsTriv cfgBelt cfgBelt (fun _ => 0) (fun _ => 0) rfl rfl⟩

/-- C3: for a non-static Swarm body, the force-accumulation phase of
`updatePhysics` folds the pair force only over the indices of non-Swarm
bodies: dropping every index holding an asteroid (including out-of-range
indices treated as absent) from the inner loop leaves its result
unchanged, so a Swarm body's acceleration is accumulated only from
non-Swarm bodies and Swarm-Swarm pairs exert no force on each other. -/
theorem claimC3 (ops : FloatOps α) (g : α) (bodies : List (CelestialBody α)) (i : Nat)
    (b : CelestialBody α) (hb : bodies.get? i = some b) (hA : b.isAsteroid = true)
    (hst : b.isStatic = false) :
    (forcePhase ops g bodies).get? i =
      some (forceLoop ops g bodies i b
        ((rangeList bodies.length).filter
          (fun j => !(((bodies.get? j).map (fun c => c.isAsteroid)).getD true)))) := by
  rw [forcePhase_get?, hb]
  simp only [Option.map_some', hst]
  rw [if_neg (by simp [hst]), forceLoop_filter_nonAst ops g bodies i _ b hA]

theorem claimC3_witness :
    stateBelt.celestialBodies.get? 2 = some (asteroidBody opsTriv cfgBelt (fun _ => 0) 0) ∧
      (asteroidBody opsTriv cfgBelt (fun _ => 0) 0).isAsteroid = true ∧
      (asteroidBody opsTriv cfgBelt (fun _ => 0) 0).isStatic = false ∧
      (forcePhase opsTriv 16 stateBelt.celestialBodies).get? 2 =
        some (forceLoop opsTriv 16 stateBelt.celestialBodies 2
          (asteroidBody opsTriv cfgBelt (fun _ => 0) 0)
          ((rangeList stateBelt.celestialBodies.length).filter
            (fun j => !(((stateBelt.celestialBodies.get? j).map
              (fun c => c.isAsteroid)).getD true)))) :=
  ⟨rfl, rfl, rfl,
    claimC3 opsTriv 16 stateBelt.celestialBodies 2
      (asteroidBody opsTriv cfgBelt (fun _ => 0) 0) rfl rfl rfl⟩

/-- C4: on an active step, every non-static body is advanced from its
force-accumulated state by semi-implicit Euler with the effective step
`dt * simulationSpeed`: velocity gains `acceleration * dt` first, position
then advances with the updated velocity, acceleration resets to zero, and
the transform is recomputed as translate times rotate times scale. -/
theorem claimC4 (ops : FloatOps α) (s : SimState α) (dt : α) (i : Nat)
    (b0 : CelestialBody α)
    (hp : s.pauseSimulation = false) (hdt : dt * s.simulationSpeed ≠ 0)
    (hb : s.celestialBodies.get? i = some b0) (hst : b0.isStatic = false) :
    ∃ b1, (forcePhase ops s.gScaled s.celestialBodies).get? i = some b1 ∧
      (updatePhysics ops s dt).1.celestialBodies.get? i = some
        { b1 with
          velocity := b1.velocity + (dt * s.simulationSpeed) • b1.acceleration
          position := b1.position + (dt * s.simulationSpeed) •
            (b1.velocity + (dt * s.simulationSpeed) • b1.acceleration)
          acceleration := 0
          modelMatrix := mat4Mul (mat4Mul
            (translateMat (b1.position + (dt * s.simulationSpeed) •
              (b1.velocity + (dt * s.simulationSpeed) • b1.acceleration)))
            (quatToMat4 b1.orientation)) (scaleMat b1.radiusScale) } := by
  refine ⟨forceLoop ops s.gScaled s.celestialBodies i b0 (rangeList s.celestialBodies.length),
    ?_, ?_⟩
  · rw [forcePhase_get?, hb]
    simp only [Option.map_some']
    rw [if_neg (by simp [hst])]
  · have hstB : (forceLoop ops s.gScaled s.celestialBodies i b0
        (rangeList s.celestialBodies.length)).isStatic = false := by
      rw [forceLoop_isStatic]; exact hst
    show (stepSim ops dt s).celestialBodies.get? i = _
    rw [stepSim_bodies ops s dt hp hdt, List.get?_map, forcePhase_get?, hb]
    simp only [Option.map_some']
    rw [if_neg (by simp [hst])]
    unfold CelestialBody.update CelestialBody.updateModelMatrix modelMatrixOf
    rw [if_neg (by simp [hstB])]

theorem claimC4_witness :
    stateSun.pauseSimulation = false ∧ (1 : ℚ) * stateSun.simulationSpeed ≠ 0 ∧
      stateSun.celestialBodies.get? 0 =
        some (mkBody 0 0 2 15 ⟨1, 0, 0, 0⟩ false false 0) ∧
      (mkBody (0 : Vec3 ℚ) 0 2 15 ⟨1, 0, 0, 0⟩ false false 0).isStatic = false ∧
      ∃ b1, (forcePhase opsSun stateSun.gScaled stateSun.celestialBodies).get? 0 = some b1 ∧
        (updatePhysics opsSun stateSun 1).1.celestialBodies.get? 0 = some
          { b1 with
            velocity := b1.velocity + ((1 : ℚ) * stateSun.simulationSpeed) • b1.acceleration
            position := b1.position + ((1 : ℚ) * stateSun.simulationSpeed) •
              (b1.velocity + ((1 : ℚ) * stateSun.simulationSpeed) • b1.acceleration)
            acceleration := 0
            modelMatrix := mat4Mul (mat4Mul
              (translateMat (b1.position + ((1 : ℚ) * stateSun.simulationSpeed) •
                (b1.velocity + ((1 : ℚ) * stateSun.simulationSpeed) • b1.acceleration)))
              (quatToMat4 b1.orientation)) (scaleMat b1.radiusScale) } :=
  ⟨rfl, by norm_num [stateSun, rebuildState], rfl, rfl,
    claimC4 opsSun stateSun 1 0 (mkBody 0 0 2 15 ⟨1, 0, 0, 0⟩ false false 0)
      rfl (by norm_num [stateSun, rebuildState]) rfl rfl⟩

/-- C1 (amended): a body created with `isStatic = true` keeps its position
and velocity across any number of `updatePhysics` steps and has its
acceleration reset to zero on every active step regardless of applied
force; the sun built by the rebuild, however, carries `isStatic = false`,
so the stated invariant does not apply to it (see the counterexample). -/
theorem claimC1 (ops : FloatOps α) (s : SimState α) (dt : α) (i : Nat)
    (b : CelestialBody α) (n : Nat)
    (hb : s.celestialBodies.get? i = some b) (hst : b.isStatic = true)
    (hp : s.pauseSimulation = false) (hdt : dt * s.simulationSpeed ≠ 0) :
    (∃ b2, ((stepSim ops dt)^[n] s).celestialBodies.get? i = some b2 ∧
        b2.position = b.position ∧ b2.velocity = b.velocity ∧ b2.isStatic = true) ∧
      ∃ b3, (stepSim ops dt s).celestialBodies.get? i = some b3 ∧ b3.acceleration = 0 := by
  constructor
  · induction n with
    | zero => exact ⟨b, by simpa using hb, rfl, rfl, hst⟩
    | succ n ih =>
      obtain ⟨b2, hb2, hpos, hvel, hst2⟩ := ih
      obtain ⟨b3, hb3, hpos3, hvel3, hst3⟩ := step_static ops dt _ i b2 hb2 hst2
      rw [Function.iterate_succ_apply']
      exact ⟨b3, hb3, by rw [hpos3, hpos], by rw [hvel3, hvel], hst3⟩
  · refine ⟨b.update (dt * s.simulationSpeed), ?_, ?_⟩
    · rw [stepSim_bodies ops s dt hp hdt, List.get?_map, forcePhase_get?, hb]
      simp [hst]
    · exact (update_static b _ hst).2.2

theorem claimC1_witness :
    stateStat.celestialBodies.get? 0 = some bodyStat ∧ bodyStat.isStatic = true ∧
      stateStat.pauseSimulation = false ∧ (1 : ℚ) * stateStat.simulationSpeed ≠ 0 ∧
      ((∃ b2, ((stepSim opsTriv 1)^[2] stateStat).celestialBodies.get? 0 = some b2 ∧
          b2.position = bodyStat.position ∧ b2.velocity = bodyStat.velocity ∧
          b2.isStatic = true) ∧
        ∃ b3, (stepSim opsTriv 1 stateStat).celestialBodies.get? 0 = some b3 ∧
          b3.acceleration = 0) :=
  ⟨rfl, rfl, rfl, by norm_num [stateStat],
    claimC1 opsTriv stateStat 1 0 bodyStat 2 rfl rfl rfl (by norm_num [stateStat])⟩

/-- C1 counterexample: in the rebuilt sun-and-planet scene `stateSun`
(sun of mass 2 at the origin, planet of mass 1 at radius 8, G = 16; the
table square root agrees with the genuine one on every value the scene
uses), the body of category Primary — index 0, type 0, created at the
origin with zero velocity — changes its velocity to `(1/4, 0, 0)` after a
single `updatePhysics` step with `dt = 1`: the rebuild creates the sun
with `isStatic = false`, so the claimed invariance of its position and
velocity fails. -/
theorem claimC1_counterexample :
    (stateSun.celestialBodies.get? 0).map (fun b => (b.type, b.position, b.velocity)) =
        some (0, 0, 0) ∧
      ((stepSim opsSun 1 stateSun).celestialBodies.get? 0).map (fun b => b.velocity) =
        some ⟨1 / 4, 0, 0⟩ ∧
      ((stepSim opsSun 1 stateSun).celestialBodies.get? 0).map (fun b => b.velocity) ≠
        some 0 := by
  have h2 : ((stepSim opsSun 1 stateSun).celestialBodies.get? 0).map (fun b => b.velocity) =
      some ⟨1 / 4, 0, 0⟩ := by
    rw [stepSim_bodies opsSun stateSun 1 rfl (by norm_num [stateSun, rebuildState]),
      List.get?_map, forcePhase_get?]
    norm_num [stateSun, rebuildState, cfgSun, opsSun, initCelestialBodies, mkBody,
      rangeList, forceLoop, forceStep, List.foldl, gravForce, epsilonSq,
      CelestialBody.applyForce, CelestialBody.update, CelestialBody.updateModelMatrix,
      modelMatrixOf, radians, angleAxis, udist, Vec3.dot, Vec3.ext_iff]
  refine ⟨rfl, h2, ?_⟩
  rw [h2]
  intro hcontra
  rw [Option.some_inj] at hcontra
  have hx := congrArg Vec3.x hcontra
  norm_num at hx

theorem Vec3.add_right_eq_self_iff (a x : Vec3 α) : a + x = a ↔ x = 0 := by
  cases a; cases x
  simp only [Vec3.ext_iff, Vec3.add_x, Vec3.add_y, Vec3.add_z,
    Vec3.zero_x, Vec3.zero_y, Vec3.zero_z]
  constructor
  · rintro ⟨h1, h2, h3⟩
    exact ⟨by linarith, by linarith, by linarith⟩
  · rintro ⟨h1, h2, h3⟩
    simp [h1, h2, h3]

/-- C6 (amended): `applyForce` leaves the acceleration unchanged exactly
when the body is static, its mass is exactly zero, or the mass-scaled
force vanishes; bodies with negative mass are not excluded — they receive
`force / mass` like any other movable massive body.  And the pair force a
body exerts on another depends only on its own position and mass, so
static and zero- or negative-mass bodies exert normal gravitational pull
on every other body. -/
theorem claimC6 (b : CelestialBody α) (f : Vec3 α) (ops : FloatOps α) (g : α)
    (c : CelestialBody α) (v a : Vec3 α) (st ast : Bool) (rs : α) (q : Quat α)
    (mm : Mat4 α) (t : ℤ) :
    ((b.applyForce f).acceleration = b.acceleration ↔
      (b.isStatic = true ∨ b.mass = 0 ∨ (1 / b.mass) • f = 0)) ∧
    gravForce ops g c
        { b with
          velocity := v
          acceleration := a
          isStatic := st
          isAsteroid := ast
          radiusScale := rs
          orientation := q
          modelMatrix := mm
          type := t } =
      gravForce ops g c b := by
  constructor
  · unfold CelestialBody.applyForce
    by_cases h : b.isStatic = true ∨ b.mass = 0
    · rw [if_pos h]
      rcases h with h | h
      · simp [h]
      · simp [h]
    · rw [if_neg h]
      push_neg at h
      dsimp only
      rw [Vec3.add_right_eq_self_iff]
      simp [h.1, h.2]
  · rfl

/-- C6 counterexample: `applyForce` only excludes bodies whose mass is
exactly zero (besides static ones); a movable body of mass `-1` — which
has mass ≤ 0 — does receive force: a unit force along x changes its
acceleration from zero to `(-1, 0, 0)`, refuting the claim that every
body with non-positive mass is excluded from receiving force. -/
theorem claimC6_counterexample :
    (mkBody (0 : Vec3 ℚ) 0 (-1) 1 ⟨1, 0, 0, 0⟩ false false 2).mass ≤ 0 ∧
      ((mkBody (0 : Vec3 ℚ) 0 (-1) 1 ⟨1, 0, 0, 0⟩ false false 2).applyForce
          ⟨1, 0, 0⟩).acceleration = ⟨-1, 0, 0⟩ ∧
      ((mkBody (0 : Vec3 ℚ) 0 (-1) 1 ⟨1, 0, 0, 0⟩ false false 2).applyForce
          ⟨1, 0, 0⟩).acceleration ≠
        (mkBody (0 : Vec3 ℚ) 0 (-1) 1 ⟨1, 0, 0, 0⟩ false false 2).acceleration := by
  refine ⟨by norm_num [mkBody], ?_, ?_⟩
  · norm_num [mkBody, CelestialBody.applyForce, Vec3.ext_iff]
  · norm_num [mkBody, CelestialBody.applyForce, Vec3.ext_iff]

/-- C2 (amended): for every ordered pair where the receiver is movable
with nonzero mass, the acceleration contribution added by the force loop
equals `G * m_i * m_j / max(eps_sq, |r|^2)` — the softening floor
`eps_sq = 1e-4` is applied to the squared separation before the force
magnitude — divided by `m_i`, times the direction vector `r` scaled by
the reciprocal of the SOFTENED magnitude `sqrt (max (eps_sq, |r|^2))`.
Whenever `|r|^2 ≥ eps_sq` that direction is the unit vector from i toward
j (second conjunct); for `0 < |r| < eps` it is shorter than unit, which
is where the original claim fails (see the counterexample). -/
theorem claimC2 (ops : FloatOps α)
    (hsq : ∀ x : α, 0 ≤ x → ops.sqrt x * ops.sqrt x = x ∧ 0 ≤ ops.sqrt x)
    (g : α) (bi bj : CelestialBody α)
    (hst : bi.isStatic = false) (hm : bi.mass ≠ 0) :
    (bi.applyForce (gravForce ops g bi bj)).acceleration =
        bi.acceleration +
          ((g * bi.mass * bj.mass /
              max epsilonSq
                (Vec3.dot (bj.position - bi.position) (bj.position - bi.position))) /
            bi.mass) •
            ((ops.sqrt (max epsilonSq
                (Vec3.dot (bj.position - bi.position) (bj.position - bi.position))))⁻¹ •
              (bj.position - bi.position)) ∧
      (epsilonSq ≤ Vec3.dot (bj.position - bi.position) (bj.position - bi.position) →
        (bi.applyForce (gravForce ops g bi bj)).acceleration =
          bi.acceleration +
            ((g * bi.mass * bj.mass /
                max epsilonSq
                  (Vec3.dot (bj.position - bi.position) (bj.position - bi.position))) /
              bi.mass) •
              ((ops.sqrt
                  (Vec3.dot (bj.position - bi.position) (bj.position - bi.position)))⁻¹ •
                (bj.position - bi.position))) := by
  have hd : (0 : α) ≤ Vec3.dot (bj.position - bi.position) (bj.position - bi.position) :=
    Vec3.dot_self_nonneg _
  have heps : (0 : α) < epsilonSq := by norm_num [epsilonSq]
  have hsoftpos : (0 : α) < max epsilonSq
      (Vec3.dot (bj.position - bi.position) (bj.position - bi.position)) :=
    lt_of_lt_of_le heps (le_max_left _ _)
  have hq := hsq _ hsoftpos.le
  have hspos : 0 < ops.sqrt (max epsilonSq
      (Vec3.dot (bj.position - bi.position) (bj.position - bi.position))) := by
    rcases hq.2.eq_or_lt with h | h
    · exfalso
      have h1 := hq.1
      rw [← h, zero_mul] at h1
      exact absurd h1.symm (ne_of_gt hsoftpos)
    · exact h
  have hif : (if Vec3.dot (bj.position - bi.position) (bj.position - bi.position) <
        epsilonSq then epsilonSq
      else Vec3.dot (bj.position - bi.position) (bj.position - bi.position)) =
      max epsilonSq (Vec3.dot (bj.position - bi.position) (bj.position - bi.position)) := by
    rcases lt_or_le (Vec3.dot (bj.position - bi.position) (bj.position - bi.position))
        epsilonSq with h | h
    · rw [if_pos h, max_eq_left h.le]
    · rw [if_neg (not_lt.mpr h), max_eq_right h]
  have hmain : (bi.applyForce (gravForce ops g bi bj)).acceleration =
      bi.acceleration +
        ((g * bi.mass * bj.mass /
            max epsilonSq
              (Vec3.dot (bj.position - bi.position) (bj.position - bi.position))) /
          bi.mass) •
          ((ops.sqrt (max epsilonSq
              (Vec3.dot (bj.position - bi.position) (bj.position - bi.position))))⁻¹ •
            (bj.position - bi.position)) := by
    unfold CelestialBody.applyForce
    rw [if_neg (by simp [hst, hm])]
    simp only [gravForce]
    rw [hif, if_pos hspos]
    simp only [Vec3.smul_smul]
    congr 1
    congr 1
    ring
  refine ⟨hmain, fun hle => ?_⟩
  rw [hmain, max_eq_right hle]

theorem claimC2_witness :
    (∀ x : ℝ, 0 ≤ x → Real.sqrt x * Real.sqrt x = x ∧ 0 ≤ Real.sqrt x) ∧
      (mkBody (0 : Vec3 ℝ) 0 1 1 ⟨1, 0, 0, 0⟩ false false 0).isStatic = false ∧
      (mkBody (0 : Vec3 ℝ) 0 1 1 ⟨1, 0, 0, 0⟩ false false 0).mass ≠ 0 ∧
      (((mkBody (0 : Vec3 ℝ) 0 1 1 ⟨1, 0, 0, 0⟩ false false 0).applyForce
            (gravForce ⟨Real.sqrt, Real.sin, Real.cos, Real.pi⟩ 1
              (mkBody 0 0 1 1 ⟨1, 0, 0, 0⟩ false false 0)
              (mkBody ⟨3, 0, 0⟩ 0 1 1 ⟨1, 0, 0, 0⟩ false false 0))).acceleration =
          (0 : Vec3 ℝ) +
            ((1 * 1 * 1 /
                max epsilonSq
                  (Vec3.dot ((⟨3, 0, 0⟩ : Vec3 ℝ) - 0) ((⟨3, 0, 0⟩ : Vec3 ℝ) - 0))) / 1) •
              ((Real.sqrt (max epsilonSq
                  (Vec3.dot ((⟨3, 0, 0⟩ : Vec3 ℝ) - 0) ((⟨3, 0, 0⟩ : Vec3 ℝ) - 0))))⁻¹ •
                ((⟨3, 0, 0⟩ : Vec3 ℝ) - 0)) ∧
        (epsilonSq ≤ Vec3.dot ((⟨3, 0, 0⟩ : Vec3 ℝ) - 0) ((⟨3, 0, 0⟩ : Vec3 ℝ) - 0) →
          ((mkBody (0 : Vec3 ℝ) 0 1 1 ⟨1, 0, 0, 0⟩ false false 0).applyForce
              (gravForce ⟨Real.sqrt, Real.sin, Real.cos, Real.pi⟩ 1
                (mkBody 0 0 1 1 ⟨1, 0, 0, 0⟩ false false 0)
                (mkBody ⟨3, 0, 0⟩ 0 1 1 ⟨1, 0, 0, 0⟩ false false 0))).acceleration =
            (0 : Vec3 ℝ) +
              ((1 * 1 * 1 /
                  max epsilonSq
                    (Vec3.dot ((⟨3, 0, 0⟩ : Vec3 ℝ) - 0) ((⟨3, 0, 0⟩ : Vec3 ℝ) - 0))) / 1) •
                ((Real.sqrt
                    (Vec3.dot ((⟨3, 0, 0⟩ : Vec3 ℝ) - 0) ((⟨3, 0, 0⟩ : Vec3 ℝ) - 0)))⁻¹ •
                  ((⟨3, 0, 0⟩ : Vec3 ℝ) - 0)))) :=
  ⟨fun x hx => ⟨Real.mul_self_sqrt hx, Real.sqrt_nonneg x⟩, rfl, by norm_num [mkBody],
    claimC2 ⟨Real.sqrt, Real.sin, Real.cos, Real.pi⟩
      (fun x hx => ⟨Real.mul_self_sqrt hx, Real.sqrt_nonneg x⟩) 1
      (mkBody 0 0 1 1 ⟨1, 0, 0, 0⟩ false false 0)
      (mkBody ⟨3, 0, 0⟩ 0 1 1 ⟨1, 0, 0, 0⟩ false false 0) rfl (by norm_num [mkBody])⟩

/-- C2 counterexample: with the receiver at the origin and the attractor
at `(1/200, 0, 0)` — separation `1/200` below `eps = 1/100`, so the
softening floor fires — the force loop adds acceleration `(5000, 0, 0)`,
whereas the claimed formula (softened force magnitude times the TRUE unit
vector from i toward j) gives `(10000, 0, 0)`: the code scales the
direction by the reciprocal of the softened magnitude
`sqrt (max (eps_sq, |r|^2))`, not of the true separation, so the claim as
stated fails for sub-softening separations. -/
theorem claimC2_counterexample :
    ((mkBody (0 : Vec3 ℝ) 0 1 1 ⟨1, 0, 0, 0⟩ false false 0).applyForce
          (gravForce ⟨Real.sqrt, Real.sin, Real.cos, Real.pi⟩ 1
            (mkBody 0 0 1 1 ⟨1, 0, 0, 0⟩ false false 0)
            (mkBody ⟨1 / 200, 0, 0⟩ 0 1 1 ⟨1, 0, 0, 0⟩ false false 0))).acceleration =
        ⟨5000, 0, 0⟩ ∧
      (0 : Vec3 ℝ) +
          ((1 * 1 * 1 /
              max epsilonSq
                (Vec3.dot ((⟨1 / 200, 0, 0⟩ : Vec3 ℝ) - 0)
                  ((⟨1 / 200, 0, 0⟩ : Vec3 ℝ) - 0))) / 1) •
            ((Real.sqrt
                (Vec3.dot ((⟨1 / 200, 0, 0⟩ : Vec3 ℝ) - 0)
                  ((⟨1 / 200, 0, 0⟩ : Vec3 ℝ) - 0)))⁻¹ •
              ((⟨1 / 200, 0, 0⟩ : Vec3 ℝ) - 0)) = ⟨10000, 0, 0⟩ ∧
      ((mkBody (0 : Vec3 ℝ) 0 1 1 ⟨1, 0, 0, 0⟩ false false 0).applyForce
          (gravForce ⟨Real.sqrt, Real.sin, Real.cos, Real.pi⟩ 1
            (mkBody 0 0 1 1 ⟨1, 0, 0, 0⟩ false false 0)
            (mkBody ⟨1 / 200, 0, 0⟩ 0 1 1 ⟨1, 0, 0, 0⟩ false false 0))).acceleration ≠
        (0 : Vec3 ℝ) +
          ((1 * 1 * 1 /
              max epsilonSq
                (Vec3.dot ((⟨1 / 200, 0, 0⟩ : Vec3 ℝ) - 0)
                  ((⟨1 / 200, 0, 0⟩ : Vec3 ℝ) - 0))) / 1) •
            ((Real.sqrt
                (Vec3.dot ((⟨1 / 200, 0, 0⟩ : Vec3 ℝ) - 0)
                  ((⟨1 / 200, 0, 0⟩ : Vec3 ℝ) - 0)))⁻¹ •
              ((⟨1 / 200, 0, 0⟩ : Vec3 ℝ) - 0)) := by
  have hs1 : Real.sqrt ((1 : ℝ) / 10000) = 1 / 100 := by
    rw [show (1 / 10000 : ℝ) = (1 / 100) ^ 2 by norm_num,
      Real.sqrt_sq (by norm_num : (0 : ℝ) ≤ 1 / 100)]
  have hs2 : Real.sqrt ((1 : ℝ) / 40000) = 1 / 200 := by
    rw [show (1 / 40000 : ℝ) = (1 / 200) ^ 2 by norm_num,
      Real.sqrt_sq (by norm_num : (0 : ℝ) ≤ 1 / 200)]
  have h1 : ((mkBody (0 : Vec3 ℝ) 0 1 1 ⟨1, 0, 0, 0⟩ false false 0).applyForce
      (gravForce ⟨Real.sqrt, Real.sin, Real.cos, Real.pi⟩ 1
        (mkBody 0 0 1 1 ⟨1, 0, 0, 0⟩ false false 0)
        (mkBody ⟨1 / 200, 0, 0⟩ 0 1 1 ⟨1, 0, 0, 0⟩ false false 0))).acceleration =
      ⟨5000, 0, 0⟩ := by
    norm_num [CelestialBody.applyForce, gravForce, mkBody, epsilonSq, Vec3.dot,
      Vec3.ext_iff, hs1]
  have h2 : (0 : Vec3 ℝ) +
      ((1 * 1 * 1 /
          max epsilonSq
            (Vec3.dot ((⟨1 / 200, 0, 0⟩ : Vec3 ℝ) - 0)
              ((⟨1 / 200, 0, 0⟩ : Vec3 ℝ) - 0))) / 1) •
        ((Real.sqrt
            (Vec3.dot ((⟨1 / 200, 0, 0⟩ : Vec3 ℝ) - 0)
              ((⟨1 / 200, 0, 0⟩ : Vec3 ℝ) - 0)))⁻¹ •
          ((⟨1 / 200, 0, 0⟩ : Vec3 ℝ) - 0)) = ⟨10000, 0, 0⟩ := by
    norm_num [epsilonSq, Vec3.dot, Vec3.ext_iff, hs2]
  refine ⟨h1, h2, ?_⟩
  rw [h1, h2]
  intro hcontra
  have hx := congrArg Vec3.x hcontra
  norm_num at hx

/-! Algebraic helpers for the Orbiter claim. -/

theorem sqrtUnique (ops : FloatOps α)
    (hsq : ∀ x : α, 0 ≤ x → ops.sqrt x * ops.sqrt x = x ∧ 0 ≤ ops.sqrt x)
    (x : α) (hx : 0 ≤ x) : ops.sqrt (x * x) = x := by
  obtain ⟨h1, h2⟩ := hsq (x * x) (mul_nonneg hx hx)
  have hfact : (ops.sqrt (x * x) - x) * (ops.sqrt (x * x) + x) = 0 := by
    linear_combination h1
  rcases mul_eq_zero.mp hfact with h | h
  · linarith
  · have hx0 : x = 0 := by linarith
    have hs0 : ops.sqrt (x * x) = 0 := by linarith
    rw [hs0, hx0]

theorem dotCircle (R c s : α) (h : s * s + c * c = 1) :
    Vec3.dot (⟨R * c, 0, R * s⟩ : Vec3 α) ⟨R * c, 0, R * s⟩ = R * R := by
  unfold Vec3.dot
  linear_combination (R * R) * h

theorem dotTangent (R c s m : α) :
    Vec3.dot (⟨-m * s, 0, m * c⟩ : Vec3 α) ⟨R * c, 0, R * s⟩ = 0 := by
  unfold Vec3.dot
  ring

theorem dotVel (c s m : α) (h : s * s + c * c = 1) :
    Vec3.dot (⟨-m * s, 0, m * c⟩ : Vec3 α) ⟨-m * s, 0, m * c⟩ = m * m := by
  unfold Vec3.dot
  linear_combination (m * m) * h

/-- C7: after a rebuild, the Orbiter (stored at index 1) sits at distance
`planetOrbitRadius` from the origin, its velocity is perpendicular to its
position vector, its speed equals `sqrt (G * sunMass / planetOrbitRadius)`
whenever the sun mass and the orbit radius are positive, and its velocity
is exactly zero otherwise. -/
theorem claimC7 (ops : FloatOps α)
    (hsq : ∀ x : α, 0 ≤ x → ops.sqrt x * ops.sqrt x = x ∧ 0 ≤ ops.sqrt x)
    (hpyth : ∀ t : α, ops.sin t * ops.sin t + ops.cos t * ops.cos t = 1)
    (cfg : SimConfig α) (u : Nat → α)
    (hR : 0 ≤ cfg.planetOrbitRadius) (hG : 0 ≤ cfg.gScaled) :
    ∃ b, (initCelestialBodies ops cfg u).get? 1 = some b ∧
      ops.sqrt (Vec3.dot b.position b.position) = cfg.planetOrbitRadius ∧
      Vec3.dot b.velocity b.position = 0 ∧
      (0 < cfg.sunMass ∧ 0 < cfg.planetOrbitRadius →
        ops.sqrt (Vec3.dot b.velocity b.velocity) =
          ops.sqrt (cfg.gScaled * cfg.sunMass / cfg.planetOrbitRadius)) ∧
      (¬(0 < cfg.sunMass ∧ 0 < cfg.planetOrbitRadius) → b.velocity = 0) := by
  refine ⟨_, rfl, ?_, ?_, ?_, ?_⟩ <;> simp only [mkBody]
  · rw [dotCircle cfg.planetOrbitRadius _ _ (hpyth (radians ops cfg.planetInitialAngle)),
      sqrtUnique ops hsq cfg.planetOrbitRadius hR]
  · exact dotTangent cfg.planetOrbitRadius _ _ _
  · intro hc
    rw [if_pos hc, dotVel _ _ _ (hpyth (radians ops cfg.planetInitialAngle)),
      sqrtUnique ops hsq _
        (hsq _ (div_nonneg (mul_nonneg hG hc.1.le) hc.2.le)).2]
  · intro hc
    rw [if_neg hc]
    simp [Vec3.ext_iff]

theorem claimC7_witness :
    (∀ x : ℝ, 0 ≤ x → Real.sqrt x * Real.sqrt x = x ∧ 0 ≤ Real.sqrt x) ∧
      (∀ t : ℝ, Real.sin t * Real.sin t + Real.cos t * Real.cos t = 1) ∧
      (0 : ℝ) ≤ (cfgR70 ℝ).planetOrbitRadius ∧ (0 : ℝ) ≤ (cfgR70 ℝ).gScaled ∧
      ∃ b, (initCelestialBodies ⟨Real.sqrt, Real.sin, Real.cos, Real.pi⟩ (cfgR70 ℝ)
          (fun _ => 0)).get? 1 = some b ∧
        Real.sqrt (Vec3.dot b.position b.position) = (cfgR70 ℝ).planetOrbitRadius ∧
        Vec3.dot b.velocity b.position = 0 ∧
        (0 < (cfgR70 ℝ).sunMass ∧ 0 < (cfgR70 ℝ).planetOrbitRadius →
          Real.sqrt (Vec3.dot b.velocity b.velocity) =
            Real.sqrt ((cfgR70 ℝ).gScaled * (cfgR70 ℝ).sunMass / (cfgR70 ℝ).planetOrbitRadius)) ∧
        (¬(0 < (cfgR70 ℝ).sunMass ∧ 0 < (cfgR70 ℝ).planetOrbitRadius) → b.velocity = 0) :=
  ⟨fun x hx => ⟨Real.mul_self_sqrt hx, Real.sqrt_nonneg x⟩,
    fun t => by
      have h := Real.sin_sq_add_cos_sq t
      nlinarith [h],
    by norm_num [cfgR70], by norm_num [cfgR70],
    claimC7 ⟨Real.sqrt, Real.sin, Real.cos, Real.pi⟩
      (fun x hx => ⟨Real.mul_self_sqrt hx, Real.sqrt_nonneg x⟩)
      (fun t => by
        have h := Real.sin_sq_add_cos_sq t
        nlinarith [h])
      (cfgR70 ℝ) (fun _ => 0) (by norm_num [cfgR70]) (by norm_num [cfgR70])⟩

/-- C10: on an active step, the publish phase writes at most
`asteroidAmount` instance slots: buffer lengths are unchanged, every slot
at an index at or beyond `asteroidAmount` is untouched even when the
store holds more Swarm bodies than the allocation, and the upload covers
exactly the minimum of the Swarm-body count and the allocation. -/
theorem claimC10 (ops : FloatOps α) (s : SimState α) (dt : α) (k : Nat)
    (hp : s.pauseSimulation = false) (hdt : dt * s.simulationSpeed ≠ 0)
    (hk : s.asteroidAmount ≤ k) (hready : s.instanceVBOsReady = true)
    (hmin : 0 < min (countAst s.celestialBodies) s.asteroidAmount) :
    (updatePhysics ops s dt).1.asteroidModelMatrices.length =
        s.asteroidModelMatrices.length ∧
      (updatePhysics ops s dt).1.asteroidNormalMatrices.length =
        s.asteroidNormalMatrices.length ∧
      (updatePhysics ops s dt).1.asteroidModelMatrices.get? k =
        s.asteroidModelMatrices.get? k ∧
      (updatePhysics ops s dt).1.asteroidNormalMatrices.get? k =
        s.asteroidNormalMatrices.get? k ∧
      (updatePhysics ops s dt).2 =
        some (min (countAst s.celestialBodies) s.asteroidAmount) := by
  rw [updatePhysics_active ops s dt hp hdt]
  unfold updatePhysicsActive
  dsimp only
  have hidx : (publishLoop (dt * s.simulationSpeed) s.asteroidAmount
      (forcePhase ops s.gScaled s.celestialBodies) 0
      s.asteroidModelMatrices s.asteroidNormalMatrices).2.1 =
      min (countAst s.celestialBodies) s.asteroidAmount := by
    rw [publishLoop_idx _ _ _ 0 _ _ (Nat.zero_le _), countAst_map_update,
      countAst_forcePhase, Nat.zero_add]
  have hpres := publishLoop_preserve_ge (dt * s.simulationSpeed) s.asteroidAmount
    (forcePhase ops s.gScaled s.celestialBodies) 0
    s.asteroidModelMatrices s.asteroidNormalMatrices k hk
  refine ⟨publishLoop_matsLength _ _ _ _ _ _, publishLoop_normsLength _ _ _ _ _ _,
    hpres.1, hpres.2, ?_⟩
  rw [hidx, if_pos ⟨lt_of_lt_of_le hmin (min_le_right _ _), hmin, hready⟩]

theorem claimC10_witness :
    stateBelt.pauseSimulation = false ∧ (1 : ℚ) * stateBelt.simulationSpeed ≠ 0 ∧
      stateBelt.asteroidAmount ≤ 5 ∧ stateBelt.instanceVBOsReady = true ∧
      0 < min (countAst stateBelt.celestialBodies) stateBelt.asteroidAmount ∧
      ((updatePhysics opsTriv stateBelt 1).1.asteroidModelMatrices.length =
          stateBelt.asteroidModelMatrices.length ∧
        (updatePhysics opsTriv stateBelt 1).1.asteroidNormalMatrices.length =
          stateBelt.asteroidNormalMatrices.length ∧
        (updatePhysics opsTriv stateBelt 1).1.asteroidModelMatrices.get? 5 =
          stateBelt.asteroidModelMatrices.get? 5 ∧
        (updatePhysics opsTriv stateBelt 1).1.asteroidNormalMatrices.get? 5 =
          stateBelt.asteroidNormalMatrices.get? 5 ∧
        (updatePhysics opsTriv stateBelt 1).2 =
          some (min (countAst stateBelt.celestialBodies) stateBelt.asteroidAmount)) :=
  ⟨rfl, by norm_num [stateBelt, rebuildState], by decide, rfl, by decide,
    claimC10 opsTriv stateBelt 1 5 rfl (by norm_num [stateBelt, rebuildState])
      (by decide) rfl (by decide)⟩

/-- C8: after a rebuild with Swarm count N > 0, exactly N bodies carry
the Swarm flag; after one unpaused step with nonzero effective dt the
renderer upload covers exactly N instance pairs (the written count), and
every slot k < N holds the transform matrix of the k-th Swarm body in
store order together with the inverse-transpose of that transform's
upper three-by-three block. -/
theorem claimC8 (ops : FloatOps α) (cfg : SimConfig α) (u : Nat → α) (speed dt : α)
    (k : Nat) (hN : 0 < cfg.asteroidAmount) (hdt : dt * speed ≠ 0)
    (hk : k < cfg.asteroidAmount) :
    countAst (initCelestialBodies ops cfg u) = cfg.asteroidAmount ∧
      (updatePhysics ops (rebuildState ops cfg u false speed true) dt).2 =
        some cfg.asteroidAmount ∧
      ∃ b, (((updatePhysics ops (rebuildState ops cfg u false speed true)
            dt).1.celestialBodies).filter (fun c => c.isAsteroid)).get? k = some b ∧
        (updatePhysics ops
            (rebuildState ops cfg u false speed true) dt).1.asteroidModelMatrices.get? k =
          some b.modelMatrix ∧
        (updatePhysics ops
            (rebuildState ops cfg u false speed true) dt).1.asteroidNormalMatrices.get? k =
          some (normalMatOf b.modelMatrix) := by
  have hcount := countAst_init ops cfg u
  rw [updatePhysics_active ops (rebuildState ops cfg u false speed true) dt rfl hdt]
  unfold updatePhysicsActive rebuildState
  dsimp only
  have hcount2 : countAst ((forcePhase ops cfg.gScaled
      (initCelestialBodies ops cfg u)).map
        (fun b => b.update (dt * speed))) = cfg.asteroidAmount := by
    rw [countAst_map_update, countAst_forcePhase, hcount]
  have hidx : (publishLoop (dt * speed) cfg.asteroidAmount
      (forcePhase ops cfg.gScaled (initCelestialBodies ops cfg u)) 0
      (List.replicate cfg.asteroidAmount (scaleMat 0))
      (List.replicate cfg.asteroidAmount (Mat4.toMat3 (scaleMat 0)))).2.1 =
      cfg.asteroidAmount := by
    rw [publishLoop_idx _ _ _ 0 _ _ (Nat.zero_le _), hcount2, Nat.zero_add, min_self]
  refine ⟨hcount, ?_, ?_⟩
  · rw [hidx, if_pos ⟨hN, hN, rfl⟩]
  · obtain ⟨b, hb1, hb2, hb3⟩ := publishLoop_slots (dt * speed) cfg.asteroidAmount
      (forcePhase ops cfg.gScaled (initCelestialBodies ops cfg u)) 0
      (List.replicate cfg.asteroidAmount (scaleMat 0))
      (List.replicate cfg.asteroidAmount (Mat4.toMat3 (scaleMat 0)))
      (by rw [hcount2, Nat.zero_add])
      (List.length_replicate _ _) (List.length_replicate _ _) k (by rw [hcount2]; exact hk)
    refine ⟨b, ?_, ?_, ?_⟩
    · rw [publishLoop_bodies]
      exact hb1
    · simpa using hb2
    · simpa using hb3

theorem claimC8_witness :
    0 < cfgBelt.asteroidAmount ∧ (1 : ℚ) * 1 ≠ 0 ∧ 0 < cfgBelt.asteroidAmount ∧
      (countAst (initCelestialBodies opsTriv cfgBelt (fun _ => 0)) =
          cfgBelt.asteroidAmount ∧
        (updatePhysics opsTriv (rebuildState opsTriv cfgBelt (fun _ => 0) false 1 true) 1).2 =
          some cfgBelt.asteroidAmount ∧
        ∃ b, (((updatePhysics opsTriv (rebuildState opsTriv cfgBelt (fun _ => 0) false 1 true)
              1).1.celestialBodies).filter (fun c => c.isAsteroid)).get? 0 = some b ∧
          (updatePhysics opsTriv (rebuildState opsTriv cfgBelt (fun _ => 0) false 1
              true) 1).1.asteroidModelMatrices.get? 0 = some b.modelMatrix ∧
          (updatePhysics opsTriv (rebuildState opsTriv cfgBelt (fun _ => 0) false 1
              true) 1).1.asteroidNormalMatrices.get? 0 =
            some (normalMatOf b.modelMatrix)) :=
  ⟨by decide, by norm_num, by decide,
    claimC8 opsTriv cfgBelt (fun _ => 0) 1 1 0 (by decide) (by norm_num) (by decide)⟩

end NBody
